import Mathlib

/-!
Verification of the Search & Pricing Engine of the agro-gram marketplace
(`services/backend-api/marketplace/ai_search.py`, `views.py`, `models.py`).

The Python code is shallowly embedded: strings are Lean `String`s, Python
floats/Decimals are `ℚ`, Django querysets over listings are Lean lists of a
`Listing` record, the `PricePrediction` table is an explicit association list,
and Python exceptions are `Except Unit`.
-/

set_option autoImplicit false

/-! ## Query parser (`PromptBasedSearchAI._parse_natural_language`) -/

/-- Python `str.split()` with no argument: split on runs of whitespace,
dropping empty fragments.  `pySplitAux acc rest` carries the current word
(reversed) in `acc`. -/
def pySplitAux : List Char → List Char → List String
  | acc, [] => if acc.isEmpty then [] else [String.mk acc.reverse]
  | acc, c :: rest =>
    if c.isWhitespace then
      if acc.isEmpty then pySplitAux [] rest
      else String.mk acc.reverse :: pySplitAux [] rest
    else pySplitAux (c :: acc) rest

def pySplit (s : String) : List String := pySplitAux [] s.toList

/-- Python `str.lower()` (ASCII queries only appear here). -/
def pyLower (s : String) : String := String.mk (s.toList.map Char.toLower)

/-- Python `str.strip()`: drop leading and trailing whitespace. -/
def pyStrip (s : String) : String :=
  String.mk (((s.toList.dropWhile Char.isWhitespace).reverse.dropWhile Char.isWhitespace).reverse)

/-- `startsWithChars needle hay` : `needle` is an initial segment of `hay`. -/
def startsWithChars : List Char → List Char → Bool
  | [], _ => true
  | _ :: _, [] => false
  | a :: as, b :: bs => a == b && startsWithChars as bs

/-- `containsSub needle hay` : `needle` occurs contiguously inside `hay`
(Python's `needle in hay` on strings). -/
def containsSub (needle : List Char) : List Char → Bool
  | [] => needle.isEmpty
  | c :: rest => startsWithChars needle (c :: rest) || containsSub needle rest

/-- Python substring test `needle in hay` for `String`s. -/
def strIn (needle hay : String) : Bool := containsSub needle.toList hay.toList

/-- Source line 100: `price_indicators`. -/
def priceIndicators : List String := ["cheap", "expensive", "affordable", "budget", "premium"]

/-- Source line 103: the indicators mapped to the low price band. -/
def lowPriceWords : List String := ["cheap", "affordable", "budget"]

/-- Band assigned to one matching price indicator (source lines 103-106). -/
def priceBand (ind : String) : String :=
  if lowPriceWords.contains ind then "low" else "high"

/-- Source lines 101-106: the price scan loops over all indicators with no
break, each match overwriting `parsed[price_range]`. -/
def scanPriceRange (q : String) : Option String :=
  priceIndicators.foldl (fun acc ind => if strIn ind q then some (priceBand ind) else acc) none

/-- Source lines 109-116: `quality_terms`, in dict insertion order. -/
def qualityTerms : List (String × String) :=
  [("premium", "PREMIUM"), ("organic", "PREMIUM"), ("high quality", "PREMIUM"),
   ("standard", "STANDARD"), ("economy", "ECONOMY"), ("budget", "ECONOMY")]

/-- Source lines 118-121: the quality scan breaks at the first matching term. -/
def scanQualityLoop (q : String) : List (String × String) → Option String
  | [] => none
  | (term, grade) :: rest => if strIn term q then some grade else scanQualityLoop q rest

def scanQuality (q : String) : Option String := scanQualityLoop q qualityTerms

/-- Source line 124: `location_indicators`. -/
def locationIndicators : List String := ["near", "in", "from", "local"]

/-- Source lines 125-129: the first word that is a location indicator and has a
following word yields that following word; the loop then breaks.  An indicator
that is the last word fails the `i + 1 < len(words)` test and the loop goes on. -/
def findLocationHint : List String → Option String
  | [] => none
  | w :: rest =>
    if locationIndicators.contains w then
      match rest with
      | [] => none
      | x :: _ => some x
    else findLocationHint rest

/-- Source line 132: `stop_words`. -/
def stopWords : List String :=
  ["the", "a", "an", "and", "or", "but", "in", "on", "at", "to", "for", "of", "with", "by"]

/-- The structured result of `_parse_natural_language` (source lines 91-97);
`category` is initialized to `None` and never set by the parser. -/
structure ParsedQuery where
  keywords : List String
  category : Option String
  price_range : Option String
  quality : Option String
  location : Option String
deriving Repr, DecidableEq

/-- `PromptBasedSearchAI._parse_natural_language` (source lines 88-135). -/
def parseNaturalLanguage (query : String) : ParsedQuery :=
  let q := pyStrip (pyLower query)
  let words := pySplit q
  { keywords := words.filter (fun w => !stopWords.contains w && decide (2 < w.length))
  , category := none
  , price_range := scanPriceRange q
  , quality := scanQuality q
  , location := findLocationHint words }

/-! ## Lexicon-scan policies (for claim C9)

Specification-side readings of the two scans, written from the spec's words:
price band = the *last* matching lexicon entry, quality = the *first*. -/

/-- Spec wording: the last matching lexicon entry, i.e. the first match when
the lexicon is scanned in reverse. -/
def lastMatchSpec (lexicon : List String) (q : String) : Option String :=
  lexicon.reverse.find? (fun t => strIn t q)

/-- Spec wording: the first matching lexicon entry, short-circuiting. -/
def firstMatchSpec (lexicon : List (String × String)) (q : String) : Option (String × String) :=
  lexicon.find? (fun e => strIn e.1 q)

/-- A fold that overwrites its accumulator at every match returns the last
match (the first one of the reversed list), or the initial accumulator when
nothing matches. -/
theorem foldl_overwrite_eq_last_match (p : String → Bool) (band : String → String) :
    ∀ (l : List String) (acc : Option String),
      l.foldl (fun a ind => if p ind then some (band ind) else a) acc
        = (l.reverse.find? p).elim acc (fun t => some (band t)) := by
  intro l
  induction l with
  | nil => intro acc; rfl
  | cons x xs ih =>
    intro acc
    rw [List.foldl_cons, ih, List.reverse_cons, List.find?_append]
    cases h : xs.reverse.find? p with
    | some t => rfl
    | none => cases hx : p x <;> simp [List.find?, hx]

/-! ## Claim C9 -/

/-- Claim C9: the price scan keeps only the last matching lexicon entry
(later matches override), while the quality scan keeps the first matching
entry and stops; the same query "budget premium" therefore resolves to the
high price band (premium, the later price match, wins) yet to PREMIUM quality
(premium, the earlier quality match, wins). -/
theorem c9_opposite_scan_policies :
    (∀ q : String, scanPriceRange q = (lastMatchSpec priceIndicators q).map priceBand)
    ∧ (∀ q : String, scanQuality q = (firstMatchSpec qualityTerms q).map (fun e => e.2))
    ∧ scanPriceRange ("budget premium") = some ("high")
    ∧ scanQuality ("budget premium") = some ("PREMIUM") := by
  refine ⟨fun q => ?_, fun q => ?_, by decide, by decide⟩
  · rw [scanPriceRange, foldl_overwrite_eq_last_match, lastMatchSpec]
    cases h : (List.reverse priceIndicators).find? (fun t => strIn t q) <;> simp [h]
  · rw [scanQuality, firstMatchSpec]
    generalize qualityTerms = l
    induction l with
    | nil => rfl
    | cons e rest ih =>
      rcases e with ⟨term, grade⟩
      cases h : strIn term q <;>
        simp [scanQualityLoop, h, List.find?_cons_of_pos, List.find?_cons_of_neg, ih]

/-! ## Claim C4 -/

/-- Claim C4 (counterexample): parsing "cheap organic tomatoes near nairobi"
does not yield `keywords = ["tomatoes"]`; the parser keeps every non-stop-word
token longer than two characters, so "cheap", "organic", "near" and "nairobi"
are all keywords as well. -/
theorem c4_keywords_counterexample :
    (parseNaturalLanguage ("cheap organic tomatoes near nairobi")).keywords
      ≠ ["tomatoes"] := by
  decide

/-- Claim C4 (amended): parsing "cheap organic tomatoes near nairobi" yields
keywords ["cheap", "organic", "tomatoes", "near", "nairobi"], price band
low (LOW), quality PREMIUM and location "nairobi". -/
theorem c4_parse_scenario :
    parseNaturalLanguage ("cheap organic tomatoes near nairobi")
      = { keywords := ["cheap", "organic", "tomatoes", "near", "nairobi"]
        , category := none
        , price_range := some ("low")
        , quality := some ("PREMIUM")
        , location := some ("nairobi") } := by
  decide

/-! ## Market insights (`PromptBasedSearchAI._get_market_insights`, source lines 259-279) -/

structure MarketInsights where
  demand_level : String
  price_stability : String
  best_time_to_buy : String
  supply_outlook : String
deriving Repr, DecidableEq

/-- `_get_market_insights`: the listing's `demand_score` and `price_trend` are
non-nullable model fields (defaults 0.5 and 0.0), passed here as `ℚ`. -/
def getMarketInsights (demand_score price_trend : ℚ) : MarketInsights :=
  let insights : MarketInsights :=
    { demand_level := "Medium", price_stability := "Stable"
    , best_time_to_buy := "Now", supply_outlook := "Adequate" }
  let insights :=
    if 7/10 < demand_score then
      { insights with demand_level := "High", best_time_to_buy := "Soon (prices may rise)" }
    else if demand_score < 3/10 then
      { insights with demand_level := "Low", best_time_to_buy := "Good time to buy" }
    else insights
  if 5 < |price_trend| then { insights with price_stability := "Volatile" } else insights

/-- Spec-side reading of claim C5's demand-level rule, written from the
claim's words (HIGH above 0.7, MEDIUM above 0.4, LOW otherwise, UNKNOWN when
the score is absent). -/
def demandLevelClaim (demand_score : Option ℚ) : String :=
  match demand_score with
  | none => "UNKNOWN"
  | some d => if 7/10 < d then "HIGH" else if 4/10 < d then "MEDIUM" else "LOW"

theorem demand_level_eq (d t : ℚ) :
    (getMarketInsights d t).demand_level
      = if 7/10 < d then "High" else if d < 3/10 then "Low" else "Medium" := by
  unfold getMarketInsights
  split_ifs <;> rfl

/-! ## Claim C5 -/

/-- Claim C5 (counterexample): at `demand_score = 0.35` the code reports the
medium demand level although 0.35 is not above 0.4, where the claim demands
LOW; the code's lower cut point is 0.3, not 0.4. -/
theorem c5_demand_level_counterexample :
    (getMarketInsights (35/100) 0).demand_level = "Medium"
    ∧ ¬ ((4:ℚ)/10 < 35/100)
    ∧ demandLevelClaim (some (35/100)) = "LOW" := by
  refine ⟨?_, by norm_num, ?_⟩
  · rw [demand_level_eq]
    norm_num
  · show (if (7:ℚ)/10 < 35/100 then "HIGH" else if (4:ℚ)/10 < 35/100 then "MEDIUM" else "LOW")
      = "LOW"
    norm_num

/-- Claim C5 (amended): the demand level is High exactly when
`demand_score > 0.7`, Low exactly when `demand_score < 0.3`, and Medium
otherwise; `demand_score` is a non-nullable field (default 0.5), so no
absent/UNKNOWN case exists. -/
theorem c5_demand_level_cut_points (d t : ℚ) :
    ((getMarketInsights d t).demand_level = "High" ↔ 7/10 < d)
    ∧ ((getMarketInsights d t).demand_level = "Low" ↔ d < 3/10)
    ∧ ((getMarketInsights d t).demand_level = "Medium" ↔ (3/10 ≤ d ∧ d ≤ 7/10)) := by
  rw [demand_level_eq]
  by_cases h1 : 7/10 < d
  · rw [if_pos h1]
    exact ⟨⟨fun _ => h1, fun _ => rfl⟩,
      ⟨fun hs => absurd hs (by decide), fun hp => absurd (lt_trans h1 hp) (by norm_num)⟩,
      ⟨fun hs => absurd hs (by decide), fun hp => absurd h1 (not_lt.mpr hp.2)⟩⟩
  · rw [if_neg h1]
    by_cases h2 : d < 3/10
    · rw [if_pos h2]
      exact ⟨⟨fun hs => absurd hs (by decide), fun hp => absurd hp h1⟩,
        ⟨fun _ => h2, fun _ => rfl⟩,
        ⟨fun hs => absurd hs (by decide), fun hp => absurd h2 (not_lt.mpr hp.1)⟩⟩
    · rw [if_neg h2]
      exact ⟨⟨fun hs => absurd hs (by decide), fun hp => absurd hp h1⟩,
        ⟨fun hs => absurd hs (by decide), fun hp => absurd hp h2⟩,
        ⟨fun _ => ⟨le_of_not_lt h2, le_of_not_lt h1⟩, fun _ => rfl⟩⟩

/-! ## Personalization (`PromptBasedSearchAI._apply_personalization`, source lines 185-215) -/

/-- A product listing, with the fields the search and personalization paths
read.  `price` is a positive decimal in the store (`MinValueValidator(0.01)`). -/
structure Listing where
  id : ℕ
  category : ℕ
  price : ℚ
  quality_grade : String
  location : String
  demand_score : ℚ
deriving Repr, DecidableEq

/-- A `UserPreference` row: empty `preferred_categories` models an empty
many-to-many set; `none` models SQL NULL for the nullable columns. -/
structure UserPreferenceRow where
  preferred_categories : List ℕ
  quality_preference : Option String
  price_range_min : Option ℚ
  price_range_max : Option ℚ
deriving Repr, DecidableEq

/-- `_apply_personalization`.  `none` for the profile models
`UserPreference.DoesNotExist` (caught: pass-through).  When
`preferred_categories` is non-empty the source (line 194) evaluates
`models.Case(...)`, but `ai_search.py` never binds the name `models`
(it imports `Q, F, Value, FloatField` from `django.db.models`), so the
branch raises `NameError`, which no handler catches; `Except.error ()`
models that.  The price filter runs only when both bounds are truthy
(non-NULL and non-zero, Python `and` on Decimals); the quality filter only
when the preference is truthy (non-NULL, non-empty). -/
def applyPersonalization (pref : Option UserPreferenceRow) (listings : List Listing) :
    Except Unit (List Listing) :=
  match pref with
  | none => .ok listings
  | some p =>
    if p.preferred_categories ≠ [] then
      .error ()
    else
      let l1 :=
        match p.price_range_min, p.price_range_max with
        | some lo, some hi =>
          if lo ≠ 0 ∧ hi ≠ 0 then
            listings.filter (fun x => decide (lo ≤ x.price ∧ x.price ≤ hi))
          else listings
        | _, _ => listings
      let l2 :=
        match p.quality_preference with
        | some q => if q ≠ "" then l1.filter (fun x => x.quality_grade == q) else l1
        | none => l1
      .ok l2

/-! ## Claim C6 -/

/-- Claim C6 (counterexample): a profile whose only active preference is
`preferred_categories = [2]`, applied to a single listing of category 1, does
not return the category-restricted list `[]`; the call fails instead (the
category branch references the unbound name `models` and raises `NameError`). -/
theorem c6_category_restriction_counterexample :
    applyPersonalization
        (some { preferred_categories := [2], quality_preference := none
              , price_range_min := none, price_range_max := none })
        [{ id := 1, category := 1, price := 5, quality_grade := "STANDARD"
         , location := "loc", demand_score := 1/2 }]
      ≠ .ok ([] : List Listing)
    ∧ applyPersonalization
        (some { preferred_categories := [2], quality_preference := none
              , price_range_min := none, price_range_max := none })
        [{ id := 1, category := 1, price := 5, quality_grade := "STANDARD"
         , location := "loc", demand_score := 1/2 }]
      = .error () := by
  exact ⟨fun h => Except.noConfusion h, rfl⟩

/-- Claim C6 (amended): a non-empty `preferred_categories` never restricts
the result to the preferred categories; the category branch raises (unbound
name `models`) for every input list, so personalization fails instead of
dropping the out-of-preference listings. -/
theorem c6_nonempty_categories_raise (p : UserPreferenceRow) (listings : List Listing)
    (h : p.preferred_categories ≠ []) :
    applyPersonalization (some p) listings = .error () := by
  simp [applyPersonalization, h]

/-- Witness for `c6_nonempty_categories_raise` at a concrete profile. -/
theorem c6_nonempty_categories_raise_witness :
    ({ preferred_categories := [2], quality_preference := none
     , price_range_min := none, price_range_max := none } : UserPreferenceRow).preferred_categories ≠ []
    ∧ applyPersonalization
        (some { preferred_categories := [2], quality_preference := none
              , price_range_min := none, price_range_max := none })
        ([] : List Listing)
      = .error () :=
  ⟨by decide,
   c6_nonempty_categories_raise
     { preferred_categories := [2], quality_preference := none
     , price_range_min := none, price_range_max := none }
     [] (by decide)⟩

/-! ## Claim C7 -/

/-- Claim C7: a profile with price range [10, 20] and no other preference,
personalizing listings priced 5, 15 and 25, keeps exactly the 15-priced one. -/
theorem c7_price_range_scenario :
    applyPersonalization
        (some { preferred_categories := [], quality_preference := none
              , price_range_min := some 10, price_range_max := some 20 })
        [ { id := 1, category := 1, price := 5, quality_grade := "STANDARD"
          , location := "a", demand_score := 1/2 }
        , { id := 2, category := 1, price := 15, quality_grade := "STANDARD"
          , location := "b", demand_score := 1/2 }
        , { id := 3, category := 1, price := 25, quality_grade := "STANDARD"
          , location := "c", demand_score := 1/2 } ]
      = .ok [ { id := 2, category := 1, price := 15, quality_grade := "STANDARD"
              , location := "b", demand_score := 1/2 } ] := by
  rfl

/-! ## Price predictor (`PricePredictor`, `ai_search.py` source lines 337-447) -/

/-- Python `round(x, 2)` as used at source line 409.  (CPython rounds exact
half-cent ties to even; no claim here depends on a tie, so half-up is used.) -/
def round2 (x : ℚ) : ℚ := (⌊x * 100 + 1/2⌋ : ℚ) / 100

/-- Source lines 424-430: `base_prices` of `_get_current_market_price`. -/
def basePrices : List (String × ℚ) :=
  [("maize", 150), ("wheat", 180), ("rice", 200), ("beans", 300), ("tomatoes", 250)]

/-- `_get_current_market_price` (source lines 420-431): table lookup on the
lower-cased crop, default 100. -/
def getCurrentMarketPrice (crop _region : String) : ℚ :=
  ((basePrices.find? (fun e => e.1 == pyLower crop)).map (fun e => e.2)).getD 100

/-- `_get_demand_trend` (source lines 433-436). -/
def getDemandTrend (_crop : String) : ℚ := 105/100

/-- `_get_supply_outlook` (source lines 438-441). -/
def getSupplyOutlook (_crop _region : String) : ℚ := 98/100

/-- `_get_weather_impact` (source lines 443-446). -/
def getWeatherImpact (_region : String) : ℚ := 102/100

/-- `PromptBasedSearchAI._get_seasonal_factor` (source lines 281-289): the
fixed 12-entry monthly table, default 1.0.  Note the class: this method is
defined on `PromptBasedSearchAI`, not on `PricePredictor`. -/
def getSeasonalFactor (month : ℕ) : ℚ :=
  (([(1, 11/10), (2, 1), (3, 9/10), (4, 8/10), (5, 9/10), (6, 1), (7, 11/10),
     (8, 12/10), (9, 11/10), (10, 1), (11, 9/10), (12, 1)]
      : List (ℕ × ℚ)).find? (fun e => e.1 == month)).elim 1 (fun e => e.2)

/-- A stored/returned prediction: point price, confidence, and the named
factor contributions (source lines 408-418). -/
structure Prediction where
  predicted_price : ℚ
  confidence : ℚ
  seasonal_impact : ℚ
  demand_trend : ℚ
  supply_outlook : ℚ
  weather_impact : ℚ
  base_price : ℚ
deriving Repr, DecidableEq

/-- `PricePredictor._generate_price_prediction` as it executes: the statement
`seasonal_factor = self._get_seasonal_factor()` (source line 397) does not
resolve — `PricePredictor` defines no `_get_seasonal_factor`; the monthly
table lives on `PromptBasedSearchAI` — so every call raises `AttributeError`
after the base-price lookup and before the remaining factors, the price
product and the confidence expression of source lines 398-418 are evaluated.
No prediction (and in particular no confidence value) is ever built. -/
def generatePricePrediction (_crop _region : String) (_days : ℕ) : Except Unit Prediction :=
  .error ()

/-- Cache key of a stored `PricePrediction` row:
(crop_type, region, prediction_horizon, prediction_date). -/
abbrev PredKey := String × String × ℕ × ℕ

/-- Django `.filter(...).first()` over the `PricePrediction` table. -/
def cacheFind (cache : List (PredKey × Prediction)) (k : PredKey) : Option Prediction :=
  (cache.find? (fun e => e.1 == k)).map (fun e => e.2)

/-- The dictionary returned by `predict_market_prices` (source lines 354-389):
on the error path only `crop_type`, `region`, `error` and `horizon_days` are
set. -/
structure MarketResponse where
  crop_type : String
  region : String
  predicted_price : Option ℚ
  confidence : Option ℚ
  horizon_days : ℕ
  source : Option String
  error : Option String
deriving Repr, DecidableEq

/-- `PricePredictor.predict_market_prices` (source lines 343-389), with the
`PricePrediction` table passed and returned explicitly; `today` is the
calendar day used for `prediction_date`.  The `try` block spans the cache
lookup, the generation and the store; on any exception the error dictionary
is returned (source lines 382-389) and nothing is written.  (At runtime the
lookup itself already raises: the filter kwargs `prediction_horizon` and
`prediction_date` are not fields of the `PricePrediction` model, whose
columns are `prediction_period` and `created_at` — `cacheFind` here is the
keyed lookup the code spells, and on the resulting empty/miss path the
failure is carried by `generatePricePrediction`; either way every call ends
in the error branch with the table unchanged.) -/
def predictMarketPrices (crop region : String) (days today : ℕ)
    (cache : List (PredKey × Prediction)) :
    MarketResponse × List (PredKey × Prediction) :=
  let key : PredKey := (crop, region, days, today)
  match cacheFind cache key with
  | some p =>
    ({ crop_type := crop, region := region, predicted_price := some p.predicted_price
     , confidence := some p.confidence, horizon_days := days
     , source := some ("cached"), error := none }, cache)
  | none =>
    match generatePricePrediction crop region days with
    | .ok p =>
      ({ crop_type := crop, region := region, predicted_price := some p.predicted_price
       , confidence := some p.confidence, horizon_days := days
       , source := some ("new_prediction"), error := none }, cache ++ [(key, p)])
    | .error _ =>
      ({ crop_type := crop, region := region, predicted_price := none
       , confidence := none, horizon_days := days
       , source := none, error := some ("Prediction unavailable") }, cache)

/-! ## Claim C3 -/

/-- Claim C3 (code evaluated at the failing input): no prediction confidence
is ever computed — at horizons 7 and 30 alike (same commodity, region and
day) the call fails before the confidence expression of source line 406 is
reached, and the caller gets the error dictionary with no `confidence` field,
so there are no confidence values to compare across horizons.  The expression
at line 406, `max(0.1, 0.8 - days_ahead / 100)`, is verbatim the function the
claim describes, but it sits after the `self._get_seasonal_factor()` call
that raises on every execution. -/
theorem c3_confidence_never_computed :
    (predictMarketPrices ("maize") ("nairobi") 7 738807 []).1.confidence = none
    ∧ (predictMarketPrices ("maize") ("nairobi") 30 738807 []).1.confidence = none
    ∧ (predictMarketPrices ("maize") ("nairobi") 7 738807 []).1.error
        = some ("Prediction unavailable")
    ∧ (predictMarketPrices ("maize") ("nairobi") 30 738807 []).1.error
        = some ("Prediction unavailable")
    ∧ generatePricePrediction ("maize") ("nairobi") 7 = .error () :=
  ⟨rfl, rfl, rfl, rfl, rfl⟩

/-! ## Claim C1 -/

/-- Claim C1 (code evaluated at the failing input): calling
`predict_market_prices` twice on the same day for ("maize", "nairobi", 30)
starting from an empty `PricePrediction` table stores nothing and returns the
error dictionary both times — the first call never produces a
`new_prediction`-tagged record and the second is never `cached`, because the
generation step raises `AttributeError` (no `_get_seasonal_factor` on
`PricePredictor`) on every cache miss. -/
theorem c1_same_day_repeat_never_cached :
    (predictMarketPrices ("maize") ("nairobi") 30 738806 []).2 = []
    ∧ (predictMarketPrices ("maize") ("nairobi") 30 738806 []).1.source = none
    ∧ (predictMarketPrices ("maize") ("nairobi") 30 738806 []).1.error
        = some ("Prediction unavailable")
    ∧ (predictMarketPrices ("maize") ("nairobi") 30 738806
         (predictMarketPrices ("maize") ("nairobi") 30 738806 []).2).1.source
        ≠ some ("cached")
    ∧ (predictMarketPrices ("maize") ("nairobi") 30 738806
         (predictMarketPrices ("maize") ("nairobi") 30 738806 []).2).1.error
        = some ("Prediction unavailable") := by
  refine ⟨rfl, rfl, rfl, fun h => Option.noConfusion h, rfl⟩

/-! ## Claim C2 -/

/-- Claim C2 (counterexample): a computation failure inside
`predict_market_prices` is not replaced by a fallback prediction — the caller
receives a dictionary with no predicted price, no source tag and
`error = "Prediction unavailable"`. -/
theorem c2_failure_not_replaced_by_fallback :
    (predictMarketPrices ("wheat") ("eldoret") 7 738806 []).1.error
      = some ("Prediction unavailable")
    ∧ (predictMarketPrices ("wheat") ("eldoret") 7 738806 []).1.predicted_price = none
    ∧ (predictMarketPrices ("wheat") ("eldoret") 7 738806 []).1.source = none :=
  ⟨rfl, rfl, rfl⟩

/-! ## Price-prediction view (`views.py`, `PricePredictionView`, source lines 626-821) -/

/-- Outcome of the `price_predictor.predict_price_api` call (source line 713):
the predictor object is constructed from `recommendations.ml_models`, outside
this app; the view only dispatches on whether the call raised, returned an
unsuccessful dictionary, or returned a successful one. -/
inductive ApiOutcome where
  | raises : ApiOutcome
  | result : Bool → ℚ → ℚ → ApiOutcome

/-- The response fields of `PricePredictionView` the claims read (the sampled
per-day `predictions` list and the `price_range` summary are response
decoration not consulted by any claim). -/
structure ViewResponse where
  success : Bool
  httpStatus : ℕ
  prediction_type : Option String
  predicted_price : Option ℚ
  confidence : Option ℚ
  error : Option String
deriving Repr, DecidableEq

/-- Source lines 764-768: `base_prices` of `_get_fallback_prediction`. -/
def fallbackBasePrices : List (String × ℚ) :=
  [("Maize", 4850/100), ("Rice", 5525/100), ("Beans", 6580/100), ("Cassava", 3260/100),
   ("Wheat", 4275/100), ("Tomatoes", 1890/100), ("Potatoes", 2245/100)]

/-- Source lines 772-778: high season Dec-Feb (x1.2), low season Jun-Aug
(x0.8), normal otherwise. -/
def fallbackSeasonFactor (month : ℕ) : ℚ :=
  if month = 12 ∨ month = 1 ∨ month = 2 then 12/10
  else if month = 6 ∨ month = 7 ∨ month = 8 then 8/10
  else 1

/-- `PricePredictionView._get_fallback_prediction` (source lines 760-813):
`jitter` is the value drawn by `random.uniform(-0.1, 0.1)`. -/
def getFallbackPrediction (crop _region : String) (_days month : ℕ) (jitter : ℚ) :
    ViewResponse :=
  let base_price := ((fallbackBasePrices.find? (fun e => e.1 == crop)).map (fun e => e.2)).getD 40
  let price := base_price * fallbackSeasonFactor month
  let final_price := price * (1 + jitter)
  { success := true, httpStatus := 200, prediction_type := some ("fallback")
  , predicted_price := some (round2 final_price), confidence := some (7/10), error := none }

/-- `PricePredictionView.post` on the standard path (`useGlobal` defaults to
false, so the global branch is skipped): dispatch on the
`predict_price_api` outcome — success formats a `standard` response
(source lines 717-745), an unsuccessful result falls back (source lines
748-750), and an exception reaches the outer handler, which answers a 500
error with no prediction (source lines 752-757). -/
def pricePredictionViewPost (outcome : ApiOutcome) (crop region : String)
    (days month : ℕ) (jitter : ℚ) : ViewResponse :=
  match outcome with
  | .raises =>
    { success := false, httpStatus := 500, prediction_type := none
    , predicted_price := none, confidence := none
    , error := some ("Failed to generate price prediction") }
  | .result true p c =>
    { success := true, httpStatus := 200, prediction_type := some ("standard")
    , predicted_price := some p, confidence := some c, error := none }
  | .result false _ _ => getFallbackPrediction crop region days month jitter

theorem fallbackBasePrice_lb (crop : String) :
    (189:ℚ)/10 ≤ ((fallbackBasePrices.find? (fun e => e.1 == crop)).map (fun e => e.2)).getD 40 := by
  cases h : fallbackBasePrices.find? (fun e => e.1 == crop) with
  | none => norm_num [Option.getD]
  | some e =>
    have hm : e ∈ fallbackBasePrices := List.mem_of_find?_eq_some h
    fin_cases hm <;> norm_num [Option.getD]

theorem fallbackSeasonFactor_lb (month : ℕ) : (8:ℚ)/10 ≤ fallbackSeasonFactor month := by
  unfold fallbackSeasonFactor
  split_ifs <;> norm_num

theorem round2_pos {x : ℚ} (hx : 1 ≤ x) : 0 < round2 x := by
  unfold round2
  have h2 : x * 100 + 1/2 - 1 < (⌊x * 100 + 1/2⌋ : ℚ) := Int.sub_one_lt_floor _
  have h3 : (0:ℚ) < (⌊x * 100 + 1/2⌋ : ℚ) := by nlinarith
  positivity

/-- Claim C2 (amended): when `predict_price_api` returns an unsuccessful
result, the caller does receive a usable (positive-priced) prediction tagged
`prediction_type = fallback` built from the static base-price table, the
3-season multiplier and the bounded jitter; but a computation failure that
raises out of `predict_price_api` is answered with a 500 error response and
no prediction, and a failure inside `predict_market_prices` is answered with
an error dictionary — raw computation failures are surfaced as structured
errors on those paths instead of fallback predictions. -/
theorem c2_fallback_only_on_unsuccessful_result (crop region : String) (days month : ℕ)
    (jitter p c : ℚ) (hj1 : -(1:ℚ)/10 ≤ jitter) (hj2 : jitter ≤ 1/10) :
    ((pricePredictionViewPost (.result false p c) crop region days month jitter).success = true
      ∧ (pricePredictionViewPost (.result false p c) crop region days month jitter).prediction_type
          = some ("fallback")
      ∧ ∃ q : ℚ,
          (pricePredictionViewPost (.result false p c) crop region days month jitter).predicted_price
            = some q
          ∧ 0 < q)
    ∧ (pricePredictionViewPost .raises crop region days month jitter).success = false
    ∧ (pricePredictionViewPost .raises crop region days month jitter).prediction_type = none
    ∧ (predictMarketPrices crop region days 738806 []).1.error
        = some ("Prediction unavailable") := by
  refine ⟨⟨rfl, rfl, ?_⟩, rfl, rfl, rfl⟩
  refine ⟨_, rfl, round2_pos ?_⟩
  have hb := fallbackBasePrice_lb crop
  have hs := fallbackSeasonFactor_lb month
  set b := ((fallbackBasePrices.find? (fun e => e.1 == crop)).map (fun e => e.2)).getD 40 with hbdef
  have hbs : (1512:ℚ)/100 ≤ b * fallbackSeasonFactor month := by nlinarith
  nlinarith

/-- Witness for `c2_fallback_only_on_unsuccessful_result` with crop "Maize",
month 3, jitter 0. -/
theorem c2_fallback_only_on_unsuccessful_result_witness :
    (-(1:ℚ)/10 ≤ 0 ∧ (0:ℚ) ≤ 1/10)
    ∧ (((pricePredictionViewPost (.result false 0 0) ("Maize") ("r") 30 3 0).success = true
      ∧ (pricePredictionViewPost (.result false 0 0) ("Maize") ("r") 30 3 0).prediction_type
          = some ("fallback")
      ∧ ∃ q : ℚ,
          (pricePredictionViewPost (.result false 0 0) ("Maize") ("r") 30 3 0).predicted_price
            = some q
          ∧ 0 < q)
    ∧ (pricePredictionViewPost .raises ("Maize") ("r") 30 3 0).success = false
    ∧ (pricePredictionViewPost .raises ("Maize") ("r") 30 3 0).prediction_type = none
    ∧ (predictMarketPrices ("Maize") ("r") 30 738806 []).1.error
        = some ("Prediction unavailable")) :=
  ⟨⟨by norm_num, by norm_num⟩,
   c2_fallback_only_on_unsuccessful_result ("Maize") ("r") 30 3 0 0 0
     (by norm_num) (by norm_num)⟩

/-! ## Search query logging (`_log_search_query`, source lines 309-319) -/

/-- The fields of the `SearchQueryLog` model that the claims read. -/
structure SearchLogEntry where
  query : String
  results_count : ℕ
deriving Repr, DecidableEq

/-- Field names of the `SearchQueryLog` Django model (`models.py` source
lines 699-731). -/
def searchQueryLogFieldNames : List String :=
  ["user", "query", "results_count", "filters_applied", "search_duration",
   "is_successful", "click_count", "session_id", "user_agent", "created_at"]

/-- Keyword names passed to `SearchQueryLog.objects.create` by
`_log_search_query` (source lines 312-317); note `filters_used`, which is not
a model field (the model's field is `filters_applied`). -/
def logSearchQueryKwargNames : List String :=
  ["user", "query", "results_count", "filters_used"]

/-- The entry `_log_search_query` tries to create: `results_count` is the
literal 0 (source line 315) — the comment "will be updated after search" has
no corresponding code anywhere. -/
def attemptedSearchLogEntry (query : String) : SearchLogEntry :=
  { query := query, results_count := 0 }

/-- Django `Model.objects.create` raises `TypeError` when passed a keyword
argument that is not a field of the model. -/
def searchLogCreate (query : String) : Except Unit SearchLogEntry :=
  if logSearchQueryKwargNames.all (fun k => searchQueryLogFieldNames.contains k) then
    .ok (attemptedSearchLogEntry query)
  else .error ()

/-- `_log_search_query`: the `except` swallows the creation failure
(log-and-continue), so this returns the entries actually written. -/
def logSearchQuery (query : String) : List SearchLogEntry :=
  match searchLogCreate query with
  | .ok e => [e]
  | .error _ => []

/-- The log entries emitted by one `search_products` call: logging happens
once, up front (source line 58), before any result is computed. -/
def searchProductsLogEntries (query : String) : List SearchLogEntry :=
  logSearchQuery query

/-! ## Claim C8 -/

/-- Claim C8 (code evaluated at the failing input): a search for "tomatoes"
emits no log entry at all — the create call passes the unknown keyword
`filters_used` (the model field is `filters_applied`) and the resulting
`TypeError` is swallowed — and even the attempted entry carries the hardcoded
`results_count = 0`, written before the search runs, not the result count. -/
theorem c8_search_log_never_written :
    searchProductsLogEntries ("tomatoes") = []
    ∧ searchQueryLogFieldNames.contains ("filters_used") = false
    ∧ (attemptedSearchLogEntry ("tomatoes")).results_count = 0 :=
  ⟨rfl, by decide, rfl⟩

/-! ## Per-listing price prediction (`PromptBasedSearchAI._predict_price`, source lines 240-257) -/

/-- `_predict_price`: `regressorOutcome` is the outcome of assembling the
feature vector and calling `self.price_model.predict` (the whole `try` body);
on success the output is floored at 0.1 (source line 253), on any exception
the listing's current price is returned (source line 257). -/
def predictPrice (regressorOutcome : Except Unit ℚ) (current_price : ℚ) : ℚ :=
  match regressorOutcome with
  | .ok pred => max pred (1/10)
  | .error _ => current_price

/-! ## Claim C10 -/

/-- Claim C10: for a listing with positive current price the per-listing
predicted price is always strictly positive — the model output floored at 0.1
on success, and silently the current price when feature assembly or the
regressor raises. -/
theorem c10_predicted_price_positive (outcome : Except Unit ℚ) (price : ℚ)
    (hp : 0 < price) :
    0 < predictPrice outcome price
    ∧ (∀ v : ℚ, outcome = .ok v → predictPrice outcome price = max v (1/10))
    ∧ (outcome = .error () → predictPrice outcome price = price) := by
  refine ⟨?_, fun v hv => by subst hv; rfl, fun he => by subst he; rfl⟩
  cases outcome with
  | ok v => exact lt_of_lt_of_le (by norm_num) (le_max_right v (1/10))
  | error e => exact hp

/-- Witness for `c10_predicted_price_positive` at regressor output 5 and
current price 3. -/
theorem c10_predicted_price_positive_witness :
    (0:ℚ) < 3 ∧ 0 < predictPrice (Except.ok 5) 3 :=
  ⟨by norm_num, (c10_predicted_price_positive (Except.ok 5) 3 (by norm_num)).1⟩
